import Mathlib

/-!
Verification of the tg autotuning runtime (AutoScheduler search state,
worker thread pool, and Session driver) against its specification.
The definitions below are shallow embeddings of the functions in
src/tg/autoschedule/auto_schedule.cc, src/tg/utils.h, src/tg/utils.cc and
src/tg/runtime/driver.cc.  Machine doubles are modelled as rationals,
opaque handles (modules, packed functions, schedules) as natural numbers.
-/

namespace Tg

/-- Abstract MultiScheduleEntity: an immutable, hashable schedule-space point. -/
abbrev Entity := Nat

/-- Abstract realized te::Schedule produced by the interpreter. -/
abbrev Sch := Nat

/-- ScheduleResult: a realized schedule together with the entity it was
interpreted from (tensors are carried along in the source but never inspected
by the operations modelled here). -/
structure ScheduleResult where
  schedule : Sch
  schedule_entities : Entity
deriving DecidableEq

/-- Modelled from the spec: EvaluatedScheduleResult (declared in
auto_schedule.h, which is not under src): a ScheduleResult paired with its
evaluation score, ordered by score, higher is better. -/
structure EvaluatedScheduleResult where
  schedule_result : ScheduleResult
  evaluation : ℚ
deriving DecidableEq

/-- Modelled from the spec: the per-key top-K container `topk_schedules` is a
bounded min-heap of EvaluatedScheduleResult (auto_schedule.h is not under
src; the spec data model calls it a bounded min-heap, snapshot sorted
ascending by score).  The heap is embedded as an ascending list: the head is
the minimum (top), popping drops the head, pushing inserts in order. -/
def heapPush : List EvaluatedScheduleResult → EvaluatedScheduleResult →
    List EvaluatedScheduleResult
  | [], e => [e]
  | x :: xs, e =>
    if e.evaluation ≤ x.evaluation then e :: x :: xs else x :: heapPush xs e

/-- AutoScheduleContext state, with the fields read and written by
auto_schedule.cc: the top-K heap, the two-generation seen sets
`known_schedules` (stable) and `knowing_schedules` (active), the step counter
`counts`, and the config snapshot.  The seen sets are embedded as
duplicate-free lists. -/
structure AutoScheduleContext where
  topk : Nat
  new_trial : Nat
  policy : String
  topk_schedules : List EvaluatedScheduleResult
  known_schedules : List Entity
  knowing_schedules : List Entity
  counts : Nat
deriving DecidableEq

/-- The seen-set bookkeeping tail of AutoScheduleContext::add_feedback
(auto_schedule.cc lines 217 to 222): insert the entity into
`knowing_schedules`; when its size exceeds 500 move it into
`known_schedules` and clear it. -/
def insertSeen (ctx : AutoScheduleContext) (e : Entity) : AutoScheduleContext :=
  let knowing :=
    if e ∈ ctx.knowing_schedules then ctx.knowing_schedules
    else e :: ctx.knowing_schedules
  if knowing.length > 500 then
    { ctx with known_schedules := knowing, knowing_schedules := [] }
  else
    { ctx with knowing_schedules := knowing }

/-- AutoScheduleContext::add_feedback (auto_schedule.cc lines 201 to 223).
When the evaluation is positive and the heap is below capacity the result is
pushed; when the heap is at capacity the code compares the new result with
top() and RETURNS EARLY when it is strictly below the minimum, skipping the
seen-set insertion; otherwise it pops the minimum and pushes the new result.
The empty-heap case of the full branch (possible only with topk = 0, where
top() would be undefined behaviour) is modelled as a no-op.  Note that
`counts` is never touched. -/
def add_feedback (ctx : AutoScheduleContext) (schedule_result : ScheduleResult)
    (evaluation : ℚ) : AutoScheduleContext :=
  if 0 < evaluation then
    let evaluated : EvaluatedScheduleResult := ⟨schedule_result, evaluation⟩
    if ctx.topk_schedules.length < ctx.topk then
      insertSeen { ctx with topk_schedules := heapPush ctx.topk_schedules evaluated }
        schedule_result.schedule_entities
    else
      match ctx.topk_schedules with
      | [] => ctx
      | top :: rest =>
        if evaluated.evaluation < top.evaluation then ctx
        else
          insertSeen { ctx with topk_schedules := heapPush rest evaluated }
            schedule_result.schedule_entities
  else
    insertSeen ctx schedule_result.schedule_entities

/-- AutoScheduler::feedback_for (auto_schedule.cc lines 273 to 304): delegate
to add_feedback on the context of the given key; the remainder of the
function extracts features and writes a profile log line, with no effect on
the search state.  The context table is embedded as a total function. -/
def feedback_for (contexts : Nat → AutoScheduleContext) (key : Nat)
    (schedule_result : ScheduleResult) (evaluation : ℚ) :
    Nat → AutoScheduleContext :=
  fun k =>
    if k = key then add_feedback (contexts key) schedule_result evaluation
    else contexts k

/-- The snapshot loop of AutoScheduler::auto_schedule (auto_schedule.cc lines
95 to 100): while the heap is nonempty, append top() to reverse_sort and
pop().  On the ascending-list heap top() is the head and pop() drops it.
Returns (reverse_sort, heap left behind). -/
def drainLoop : List EvaluatedScheduleResult →
    List EvaluatedScheduleResult × List EvaluatedScheduleResult
  | [] => ([], [])
  | e :: rest =>
    let r := drainLoop rest
    (e :: r.1, r.2)

/-- One proposal through the first-pass freshness filter of
AutoScheduler::auto_schedule (auto_schedule.cc lines 134 to 144): under
`must_new` the proposal is pushed once when absent from `known_schedules` and,
INDEPENDENTLY, pushed once more when absent from `knowing_schedules`; without
`must_new` it is pushed once unconditionally. -/
def acceptCandidate (ctx : AutoScheduleContext) (must_new : Bool) (e : Entity) :
    List Entity :=
  if must_new then
    (if e ∈ ctx.known_schedules then [] else [e]) ++
      (if e ∈ ctx.knowing_schedules then [] else [e])
  else [e]

/-- The first pass of the candidate-batch loop: every drawn entity goes
through the freshness filter with `must_new` = true. -/
def firstPass (ctx : AutoScheduleContext) (round1 : List Entity) : List Entity :=
  (round1.map (fun e => acceptCandidate ctx true e)).flatten

/-- The candidate-batch construction of AutoScheduler::auto_schedule
(auto_schedule.cc lines 110 to 153): a first pass with the freshness filter;
when it yields nothing, one more pass with `must_new` = false accepting every
proposal.  The entities drawn by spaces.choose_one in the two passes are
supplied as `round1` and `round2` (the sampler and the seed selection are
external collaborators).  With a nonempty second round this matches the
source while-loop, which exits as soon as the batch is nonempty. -/
def buildBatch (ctx : AutoScheduleContext) (round1 round2 : List Entity) :
    List Entity :=
  let fp := firstPass ctx round1
  if fp = [] then (round2.map (fun e => acceptCandidate ctx false e)).flatten
  else fp

/-- The candidate-selection portion of one search step
(auto_schedule.cc lines 95 to 153): drain the top-K heap into the sorted
snapshot, then build the candidate batch.  Returns (snapshot, batch, context
as it stands after candidate selection). -/
def candidateSelection (ctx : AutoScheduleContext) (round1 round2 : List Entity) :
    List EvaluatedScheduleResult × List Entity × AutoScheduleContext :=
  let d := drainLoop ctx.topk_schedules
  let ctxAfter := { ctx with topk_schedules := d.2 }
  (d.1, buildBatch ctxAfter round1 round2, ctxAfter)

/-- Modelled from the spec: the AutoScheduleContext constructor
AutoScheduleContext(key, subgraph, target, topk, new_trial, policy) lives in
auto_schedule.h, which is not under src; per the spec data model a fresh
per-key state has an empty top-K heap, empty seen sets and zero counts. -/
def freshContext (topk new_trial : Nat) (policy : String) : AutoScheduleContext :=
  ⟨topk, new_trial, policy, [], [], [], 0⟩

/-- Lookup in the `contexts` table of AutoScheduler (std::unordered_map
semantics, embedded as an association list). -/
def ctxFind : List (Nat × AutoScheduleContext) → Nat → Option AutoScheduleContext
  | [], _ => none
  | (k2, v) :: rest, k => if k2 = k then some v else ctxFind rest k

/-- Insertion into the `contexts` table: replace at an existing key, append
otherwise. -/
def ctxInsert : List (Nat × AutoScheduleContext) → Nat → AutoScheduleContext →
    List (Nat × AutoScheduleContext)
  | [], k, v => [(k, v)]
  | (k2, v2) :: rest, k, v =>
    if k2 = k then (k2, v) :: rest else (k2, v2) :: ctxInsert rest k v

/-- AutoScheduler::schedule_with_entity (auto_schedule.cc lines 239 to 250):
lazily create the context of the key when missing, build an empty schedule,
interpret the supplied entity into it, and return
ScheduleResult(sch, tensors, entity).  `interp` abstracts the external
interpreter hook (tg.autoschedule.interpret); the search state of the
context is never read or written. -/
def schedule_with_entity (interp : Entity → Sch) (topk new_trial : Nat)
    (policy : String) (contexts : List (Nat × AutoScheduleContext)) (key : Nat)
    (entity : Entity) : ScheduleResult × List (Nat × AutoScheduleContext) :=
  let contexts2 :=
    match ctxFind contexts key with
    | some _ => contexts
    | none => ctxInsert contexts key (freshContext topk new_trial policy)
  ({ schedule := interp entity, schedule_entities := entity }, contexts2)

/-- ThreadPool task deque (utils.h): tasks abstracted to ids, front at the
list head.  The worker loop in utils.cc lines 12 to 26 always takes from the
front. -/
structure ThreadPool where
  tasks : List Nat
deriving DecidableEq

/-- ThreadPool::push_back (utils.h lines 114 to 137): tasks.emplace_back,
appending at the back. -/
def ThreadPool.push_back (p : ThreadPool) (t : Nat) : ThreadPool :=
  ⟨p.tasks ++ [t]⟩

/-- ThreadPool::push_front (utils.h lines 89 to 112): despite its name the
body runs tasks.emplace_back, appending at the back exactly like push_back. -/
def ThreadPool.push_front (p : ThreadPool) (t : Nat) : ThreadPool :=
  ⟨p.tasks ++ [t]⟩

/-- The worker dequeue step (utils.cc lines 21 to 22): take tasks.front(),
then pop_front(). -/
def ThreadPool.dequeue (p : ThreadPool) : Option (Nat × ThreadPool) :=
  match p.tasks with
  | [] => none
  | t :: rest => some (t, ⟨rest⟩)

/-- AutoScheduler::schedule_for (auto_schedule.cc lines 253 to 270):
priority 0 submits through push_back, priority 1 (emergency) through
push_front, anything else is an error. -/
def schedule_for (p : ThreadPool) (priority : Nat) (job : Nat) :
    Except String ThreadPool :=
  if priority = 0 then Except.ok (p.push_back job)
  else if priority = 1 then Except.ok (p.push_front job)
  else Except.error "Unsupported schedule priority"

/-- The normal-path push into built_functions[key] in Session::run_build
(driver.cc lines 601 to 606): when size() > 1000 the code only emits a
log line reading Blocking and does not push (the artifact is discarded and
the node still advances); otherwise it pushes.  Artifacts abstracted to
ids. -/
def runBuildPush (built : List Nat) (artifact : Nat) : List Nat :=
  if built.length > 1000 then built else built ++ [artifact]

/-- The emergency-path pushes into built_functions[key] in Session::run_build
(driver.cc lines 558 and 712) and the push in Session::prepare_for_test
(driver.cc line 1190): unconditional, with no size check. -/
def emergencyBuildPush (built : List Nat) (artifact : Nat) : List Nat :=
  built ++ [artifact]

/-- One best_functions record: (ScheduleResult, Module, PackedFunc, gflops,
elapsed ms), module and function abstracted to ids. -/
structure BestRecord where
  schedule_result : ScheduleResult
  mod : Nat
  func : Nat
  gflops : ℚ
  elapsed : ℚ
deriving DecidableEq

/-- The measured-result best update in Session::run_evaluate (driver.cc lines
800 to 813): install the record when the slot is empty; otherwise push then
pop (replacing the front) only when the new gflops strictly exceeds the
gflops of the front record. -/
def evalUpdateBest (best : List BestRecord) (r : BestRecord) : List BestRecord :=
  match best with
  | [] => [r]
  | b :: rest =>
    if b.gflops < r.gflops then ((b :: rest) ++ [r]).tail else b :: rest

/-- The tag-aliasing best update in Session::run_evaluate (driver.cc lines
836 to 843): copy the front best record of a sibling with the same tag; when
the own slot is nonempty, push then pop with NO gflops comparison. -/
def aliasBest (best : List BestRecord) (sibling : BestRecord) : List BestRecord :=
  match best with
  | [] => [sibling]
  | b :: rest => ((b :: rest) ++ [sibling]).tail

/-- Session bookkeeping touched by end_tuning, each table embedded as the set
(duplicate-free list) of task ids it holds: `finish` and
`cached_all_functions` hold the ids mapped to true, the thread tables hold
the ids owning a live worker thread. -/
structure SessionThreads where
  finish : List Nat
  in_tuning : List Nat
  cached_all_functions : List Nat
  sch_threads : List Nat
  build_threads : List Nat
  evaluate_threads : List Nat
deriving DecidableEq

/-- Set insertion for the embedded session tables. -/
def insertSet (l : List Nat) (x : Nat) : List Nat :=
  if x ∈ l then l else x :: l

/-- Set removal for the embedded session tables. -/
def eraseKey : List Nat → Nat → List Nat
  | [], _ => []
  | y :: rest, x => if y = x then eraseKey rest x else y :: eraseKey rest x

/-- One thread-table epilogue of Session::end_tuning (driver.cc lines 1304 to
1307 and the two copies below it): the branch fires only when the task id is
NOT in the table; it then reads table[task_id] through operator[], which
default-constructs a thread object, and join() on it throws.  When the id is
present the branch is skipped and the table is left untouched. -/
def endTuningJoin (table : List Nat) (task_id : Nat) : Except String (List Nat) :=
  if task_id ∈ table then Except.ok table
  else Except.error "join on a thread object that is not joinable"

/-- Session::end_tuning (driver.cc lines 1286 to 1324).  The initial spin
loop is modelled as a guard: the call returns (normally or by throw) only
when cached_all_functions[task_id] is true, and never returns (none)
otherwise.  It then sets finish[task_id], clears and erases
in_tuning[task_id], and runs the three thread-table epilogues. -/
def end_tuning (s : SessionThreads) (task_id : Nat) :
    Option (Except String SessionThreads) :=
  if task_id ∈ s.cached_all_functions then
    some (
      let s1 : SessionThreads :=
        { s with finish := insertSet s.finish task_id,
                 in_tuning := eraseKey s.in_tuning task_id }
      match endTuningJoin s1.sch_threads task_id with
      | Except.error e => Except.error e
      | Except.ok sch =>
        match endTuningJoin s1.build_threads task_id with
        | Except.error e => Except.error e
        | Except.ok bld =>
          match endTuningJoin s1.evaluate_threads task_id with
          | Except.error e => Except.error e
          | Except.ok evt =>
            Except.ok { s1 with sch_threads := sch, build_threads := bld,
                                evaluate_threads := evt })
  else none

/-- The process-wide session registry of create_or_get_session (driver.cc
lines 1365 to 1384), embedded as an association list.  An entry holds
`some sid` for a Session constructed by the create path, and `none` for a
default-constructed (null) shared_ptr inserted by map operator[]. -/
structure SessionRegistry where
  sessions : List (Nat × Option Nat)
  global_count : Nat
deriving DecidableEq

/-- Map find on the registry (std::unordered_map::find). -/
def regFind : List (Nat × Option Nat) → Nat → Option (Option Nat)
  | [], _ => none
  | (k2, v) :: rest, k => if k2 = k then some v else regFind rest k

/-- Map write on the registry (operator[] assignment): replace at an existing
key, append otherwise. -/
def regInsert : List (Nat × Option Nat) → Nat → Option Nat →
    List (Nat × Option Nat)
  | [], k, v => [(k, v)]
  | (k2, v2) :: rest, k, v =>
    if k2 = k then (k2, v) :: rest else (k2, v2) :: regInsert rest k v

/-- The create path of create_or_get_session (driver.cc lines 1377 to 1383):
construct the Session at key global_count, record the id into session_id,
increment global_count, and return sessions[global_count], that is,
operator[] on the ALREADY INCREMENTED counter, which inserts a
default-constructed null entry at the next id when absent and returns it.
Returns (recorded session id, returned shared_ptr, new registry). -/
def create_session (st : SessionRegistry) :
    Nat × Option Nat × SessionRegistry :=
  let m1 := regInsert st.sessions st.global_count (some st.global_count)
  let sid := st.global_count
  let gc := st.global_count + 1
  match regFind m1 gc with
  | some v => (sid, v, ⟨m1, gc⟩)
  | none => (sid, none, ⟨regInsert m1 gc none, gc⟩)

/-- The get path of create_or_get_session as used by get_session (driver.cc
lines 1369 to 1376 with clear_session = false, and lines 1395 to 1398):
assert that the id is a key of the map, then return the stored pointer,
which may be a null shared_ptr. -/
def get_session (st : SessionRegistry) (session_id : Nat) :
    Except String (Option Nat) :=
  match regFind st.sessions session_id with
  | some v => Except.ok v
  | none => Except.error "Cannot find the session"

/- Concrete inputs used by the counterexamples and witnesses below. -/

/-- A pool with one pending normal-priority job (id 10). -/
def c1pool : ThreadPool := ⟨[10]⟩

/-- A top-K entry with score 3. -/
def c2entry : EvaluatedScheduleResult := ⟨⟨0, 0⟩, 3⟩

/-- A context whose top-K heap holds exactly c2entry. -/
def c2ctx : AutoScheduleContext := ⟨20, 20, "profile", [c2entry], [], [], 0⟩

/-- A session state for task 0: in tuning, all functions cached, all three
worker threads alive. -/
def c5state : SessionThreads := ⟨[], [0], [0], [0], [0], [0]⟩

/-- A best record with gflops 10. -/
def c4r10 : BestRecord := ⟨⟨0, 0⟩, 0, 0, 10, 1⟩

/-- A sibling best record with gflops 5. -/
def c4r5 : BestRecord := ⟨⟨1, 1⟩, 1, 1, 5, 2⟩

/-- A context with both seen sets empty. -/
def c6ctxA : AutoScheduleContext := ⟨20, 20, "profile", [], [], [], 0⟩

/-- A context whose stable seen set holds entity 7 and whose active seen set
is empty. -/
def c6ctxB : AutoScheduleContext := ⟨20, 20, "profile", [], [7], [], 0⟩

/-- The minimum entry of the full top-K heap used for C7. -/
def c7m : EvaluatedScheduleResult := ⟨⟨0, 0⟩, 5⟩

/-- A context with capacity 1 whose heap is full, holding c7m (score 5). -/
def c7ctx : AutoScheduleContext := ⟨1, 0, "profile", [c7m], [], [], 0⟩

/-- A new schedule result distinct from the one in c7m. -/
def c7sr : ScheduleResult := ⟨1, 1⟩

/-- A context table mapping every key to a fresh context with zero counts. -/
def c8ctxs : Nat → AutoScheduleContext := fun _ => ⟨20, 20, "profile", [], [], [], 0⟩

/- Helper lemmas. -/

/-- The snapshot loop collects exactly the heap contents, in heap order, and
leaves the heap empty. -/
theorem drainLoop_eq (h : List EvaluatedScheduleResult) : drainLoop h = (h, []) := by
  induction h with
  | nil => rfl
  | cons e rest ih => simp [drainLoop, ih]

/-- The seen-set bookkeeping never touches the top-K heap. -/
theorem insertSeen_topk (ctx : AutoScheduleContext) (e : Entity) :
    (insertSeen ctx e).topk_schedules = ctx.topk_schedules := by
  simp only [insertSeen]
  split <;> split <;> rfl

/-- The seen-set bookkeeping never touches the step counter. -/
theorem insertSeen_counts (ctx : AutoScheduleContext) (e : Entity) :
    (insertSeen ctx e).counts = ctx.counts := by
  simp only [insertSeen]
  split <;> split <;> rfl

/-- add_feedback never touches the step counter. -/
theorem add_feedback_counts (ctx : AutoScheduleContext) (sr : ScheduleResult)
    (ev : ℚ) : (add_feedback ctx sr ev).counts = ctx.counts := by
  simp only [add_feedback]
  split
  · split
    · exact insertSeen_counts _ _
    · split
      · rfl
      · split
        · rfl
        · exact insertSeen_counts _ _
  · exact insertSeen_counts _ _

/-- The pushed element is a member of the heap after heapPush. -/
theorem heapPush_mem (h : List EvaluatedScheduleResult)
    (e : EvaluatedScheduleResult) : e ∈ heapPush h e := by
  induction h with
  | nil => simp [heapPush]
  | cons x xs ih =>
    unfold heapPush
    split
    · exact List.mem_cons_self _ _
    · exact List.mem_cons_of_mem _ ih

/-- Lookup after insertion in the context table. -/
theorem ctxFind_insert (m : List (Nat × AutoScheduleContext)) (k : Nat)
    (v : AutoScheduleContext) (k2 : Nat) :
    ctxFind (ctxInsert m k v) k2 = if k2 = k then some v else ctxFind m k2 := by
  induction m with
  | nil =>
    by_cases h : k2 = k
    · subst h
      simp [ctxInsert, ctxFind]
    · have hs : ¬ k = k2 := fun hh => h hh.symm
      simp [ctxInsert, ctxFind, h, hs]
  | cons kv rest ih =>
    obtain ⟨k3, v3⟩ := kv
    by_cases h3 : k3 = k
    · subst h3
      by_cases h2 : k2 = k3
      · subst h2
        simp [ctxInsert, ctxFind]
      · have hs : ¬ k3 = k2 := fun hh => h2 hh.symm
        simp [ctxInsert, ctxFind, h2, hs]
    · by_cases h2 : k2 = k3
      · subst h2
        simp [ctxInsert, ctxFind, h3]
      · have hs : ¬ k3 = k2 := fun hh => h2 hh.symm
        simp [ctxInsert, ctxFind, h3, h2, hs, ih]

/-- Flattening singleton lists is the identity. -/
theorem flatten_map_singleton (l : List Entity) :
    (l.map (fun e => [e])).flatten = l := by
  induction l with
  | nil => rfl
  | cons x xs ih => simp [ih]

/- Claim theorems. -/

/-- C1: the claim states that an emergency-priority search job submitted
while a normal job is pending is placed at the head of the task queue and
dequeued first.  The code of ThreadPool::push_front runs tasks.emplace_back,
so the emergency job (id 11) submitted after a pending normal job (id 10)
lands at the TAIL and the normal job is dequeued first: the code contradicts
the very name of push_front and the stated priority design. -/
theorem c1_emergency_not_dequeued_first :
    schedule_for c1pool 1 11 = Except.ok ⟨[10, 11]⟩ ∧
    ThreadPool.dequeue ⟨[10, 11]⟩ = some (10, ⟨[11]⟩) :=
  ⟨rfl, rfl⟩

/-- C2 counterexample: taking the snapshot DOES remove entries from the
top-K heap.  A context whose heap holds one entry comes out of candidate
selection with an empty heap, so the entry is no longer in top_k, refuting
the claim that every entry present at the start of the step is still present
after candidate selection. -/
theorem c2_counterexample :
    c2entry ∈ c2ctx.topk_schedules ∧
    c2entry ∉ (candidateSelection c2ctx [] []).2.2.topk_schedules := by
  decide

/-- C2 (amended): the snapshot loop of one search step pops every entry of
top_k into the sorted snapshot vector and pushes nothing back, so after the
candidate selection of the step the snapshot holds exactly the former heap
contents and top_k itself is empty (entries re-enter only through
add_feedback during the scoring phase, under the profile policy). -/
theorem c2_snapshot_drains_heap (ctx : AutoScheduleContext)
    (round1 round2 : List Entity) :
    (candidateSelection ctx round1 round2).1 = ctx.topk_schedules ∧
    (candidateSelection ctx round1 round2).2.2.topk_schedules = [] := by
  simp only [candidateSelection]
  rw [drainLoop_eq]
  exact ⟨rfl, rfl⟩

/-- C3 counterexample: the length of built_functions[key] can exceed 1000,
and an over-bound push drops the artifact instead of stalling.  With 1000
artifacts queued the normal-path push still pushes (the guard checks
size() > 1000), reaching length 1001; with 1001 queued the push returns the
queue unchanged, discarding artifact 7 rather than blocking the producer. -/
theorem c3_counterexample :
    (runBuildPush (List.replicate 1000 0) 7).length = 1001 ∧
    runBuildPush (List.replicate 1001 0) 7 = List.replicate 1001 0 := by
  have h1 : (List.replicate 1000 (0 : Nat)).length = 1000 := List.length_replicate _ _
  have h2 : (List.replicate 1001 (0 : Nat)).length = 1001 := List.length_replicate _ _
  constructor
  · simp only [runBuildPush, h1]
    rw [if_neg (by omega)]
    rw [List.length_append, h1]
    rfl
  · simp only [runBuildPush, h2]
    rw [if_pos (by omega)]

/-- C3 (amended): on the normal build path a push when
built_functions[key] holds more than 1000 artifacts discards the artifact
(only a log line is emitted; the producer never blocks), so the normal path
preserves the bound 1001 rather than 1000; the emergency-build and
prepare_for_test pushes are unconditional and grow the queue without
bound. -/
theorem c3_normal_push_bound_and_drop (built : List Nat) (artifact : Nat)
    (h : built.length ≤ 1001) :
    (runBuildPush built artifact).length ≤ 1001 ∧
    (1000 < built.length → runBuildPush built artifact = built) ∧
    (emergencyBuildPush built artifact).length = built.length + 1 := by
  simp only [runBuildPush, emergencyBuildPush]
  refine ⟨?_, ?_, by rw [List.length_append]; rfl⟩
  · split
    · exact h
    · rename_i hle
      rw [List.length_append]
      simp only [List.length_singleton]
      omega
  · intro hgt
    rw [if_pos hgt]

/-- C3 witness. -/
theorem c3_witness :
    (List.replicate 1001 (0 : Nat)).length ≤ 1001 ∧
    ((runBuildPush (List.replicate 1001 0) 7).length ≤ 1001 ∧
     (1000 < (List.replicate 1001 (0 : Nat)).length →
       runBuildPush (List.replicate 1001 0) 7 = List.replicate 1001 0) ∧
     (emergencyBuildPush (List.replicate 1001 0) 7).length =
       (List.replicate 1001 (0 : Nat)).length + 1) :=
  ⟨le_of_eq (List.length_replicate _ _),
   c3_normal_push_bound_and_drop (List.replicate 1001 0) 7
     (le_of_eq (List.length_replicate _ _))⟩

/-- C4 counterexample: the tag-based aliasing path of the evaluate worker
replaces the best record without any gflops comparison, so it can install a
record with STRICTLY LOWER gflops: aliasing a sibling record of 5 gflops
over an own best of 10 gflops leaves 5 gflops in the slot, refuting the
claim that every replacement installs strictly greater gflops. -/
theorem c4_counterexample :
    aliasBest [c4r10] c4r5 = [c4r5] ∧ c4r5.gflops < c4r10.gflops := by
  decide

/-- C4 (amended): the measured-replacement path of the evaluate worker is
monotone on a singleton best slot: it either keeps the old record or
installs the new one with strictly greater gflops; the tag-aliasing path,
however, replaces the front record by the sibling record unconditionally,
with no gflops comparison, so best gflops can decrease through aliasing. -/
theorem c4_best_update_paths :
    (∀ b r : BestRecord, evalUpdateBest [b] r = [b] ∨
      (evalUpdateBest [b] r = [r] ∧ b.gflops < r.gflops)) ∧
    (∀ (b : BestRecord) (rest : List BestRecord) (s : BestRecord),
      aliasBest (b :: rest) s = rest ++ [s]) := by
  constructor
  · intro b r
    by_cases h : b.gflops < r.gflops
    · right
      exact ⟨by simp [evalUpdateBest, h], h⟩
    · left
      simp [evalUpdateBest, h]
  · intro b rest s
    rfl

/-- C5: the claim states that end_tuning joins the three worker threads and
removes them from the session thread tables.  The source guards each join
with find(task_id) == end(), so for a task whose workers are alive (present
in all three tables) every join branch is SKIPPED: end_tuning returns with
finish[0] set and in_tuning cleared, but all three thread tables still hold
task 0 and no thread was joined.  The inverted guard can never join a live
thread (when it fires, operator[] yields a default-constructed thread and
join() throws), contradicting the clean-termination design the code itself
comments as end the thread. -/
theorem c5_end_tuning_leaves_threads :
    end_tuning c5state 0 = some (Except.ok ⟨[0], [], [0], [0], [0], [0]⟩) ∧
    0 ∈ c5state.sch_threads ∧ 0 ∈ c5state.build_threads ∧
    0 ∈ c5state.evaluate_threads :=
  ⟨rfl, by decide, by decide, by decide⟩

/-- C6 counterexample: the first pass of the candidate-batch construction
does not implement accept-only-if-absent-from-both as one element.  An
entity (5) absent from both seen sets is pushed TWICE (once per membership
test), and an entity (7) present in the stable set but absent from the
active set is still accepted, refuting both halves of the claimed filter. -/
theorem c6_counterexample :
    (buildBatch c6ctxA [5] []).count 5 = 2 ∧
    7 ∈ c6ctxB.known_schedules ∧ (buildBatch c6ctxB [7] []).count 7 = 1 := by
  decide

/-- C6 (amended): on the first pass a proposal is pushed once for each of
the two seen sets it is absent from (twice when absent from both, once when
absent from exactly one, rejected only when present in both); and if and
only if the first pass yields zero candidates, the construction repeats with
the freshness filter dropped, accepting every proposal of the second round
exactly once. -/
theorem c6_filter_per_set (ctx : AutoScheduleContext) (e : Entity)
    (round1 round2 : List Entity) :
    (acceptCandidate ctx true e).count e =
      ((if e ∈ ctx.known_schedules then 0 else 1) +
        (if e ∈ ctx.knowing_schedules then 0 else 1)) ∧
    (firstPass ctx round1 ≠ [] →
      buildBatch ctx round1 round2 = firstPass ctx round1) ∧
    (firstPass ctx round1 = [] → buildBatch ctx round1 round2 = round2) := by
  refine ⟨?_, ?_, ?_⟩
  · simp only [acceptCandidate, if_pos]
    by_cases h1 : e ∈ ctx.known_schedules <;>
      by_cases h2 : e ∈ ctx.knowing_schedules <;>
      simp [h1, h2]
  · intro hne
    simp only [buildBatch]
    rw [if_neg hne]
  · intro hemp
    simp only [buildBatch]
    rw [if_pos hemp]
    have hsing : (fun e => acceptCandidate ctx false e) = fun e : Entity => [e] := by
      funext e
      rfl
    rw [hsing, flatten_map_singleton]

/-- C6 witness. -/
theorem c6_witness :
    ((acceptCandidate c6ctxA true 5).count 5 =
      ((if 5 ∈ c6ctxA.known_schedules then 0 else 1) +
        (if 5 ∈ c6ctxA.knowing_schedules then 0 else 1)) ∧
     (firstPass c6ctxA [5] ≠ [] →
       buildBatch c6ctxA [5] [9] = firstPass c6ctxA [5]) ∧
     (firstPass c6ctxA [5] = [] → buildBatch c6ctxA [5] [9] = [9])) ∧
    firstPass c6ctxA [5] ≠ [] ∧ buildBatch c6ctxA [5] [9] = firstPass c6ctxA [5] :=
  ⟨c6_filter_per_set c6ctxA 5 [5] [9],
   by decide,
   (c6_filter_per_set c6ctxA 5 [5] [9]).2.1 (by decide)⟩

/-- C7 counterexample: with the top-K heap full (capacity 1, minimum score
5), feeding back a new result whose score exactly equals the minimum does
NOT leave the heap unchanged: the source drops only when the new result is
strictly below top(), so an equal score pops the old minimum and pushes the
new result. -/
theorem c7_counterexample :
    (add_feedback c7ctx c7sr 5).topk_schedules = [⟨c7sr, 5⟩] ∧
    (add_feedback c7ctx c7sr 5).topk_schedules ≠ c7ctx.topk_schedules := by
  decide

/-- C7 (amended): when gflops is positive and the per-key heap already holds
topk entries, the new result is dropped (heap unchanged, seen sets not even
updated) if and only if its score is STRICTLY below the current minimum;
when the score is greater than or equal to the minimum, the minimum is
evicted and the new result is inserted — in particular a score exactly equal
to the minimum replaces it instead of being dropped. -/
theorem c7_topk_tie_evicts (ctx : AutoScheduleContext) (sr : ScheduleResult)
    (ev : ℚ) (m : EvaluatedScheduleResult) (rest : List EvaluatedScheduleResult)
    (hheap : ctx.topk_schedules = m :: rest)
    (hfull : ctx.topk ≤ ctx.topk_schedules.length)
    (hpos : 0 < ev) :
    (ev < m.evaluation →
      (add_feedback ctx sr ev).topk_schedules = ctx.topk_schedules) ∧
    (m.evaluation ≤ ev →
      (add_feedback ctx sr ev).topk_schedules = heapPush rest ⟨sr, ev⟩ ∧
      (⟨sr, ev⟩ : EvaluatedScheduleResult) ∈
        (add_feedback ctx sr ev).topk_schedules) := by
  have hnotlt : ¬ ctx.topk_schedules.length < ctx.topk := Nat.not_lt.mpr hfull
  constructor
  · intro hlt
    simp only [add_feedback]
    rw [if_pos hpos, if_neg hnotlt, hheap]
    dsimp only
    rw [if_pos hlt]
    exact hheap
  · intro hge
    have hnot : ¬ (ev < m.evaluation) := not_lt.mpr hge
    have heq : (add_feedback ctx sr ev).topk_schedules = heapPush rest ⟨sr, ev⟩ := by
      simp only [add_feedback]
      rw [if_pos hpos, if_neg hnotlt, hheap]
      dsimp only
      rw [if_neg hnot]
      exact insertSeen_topk _ _
    exact ⟨heq, heq ▸ heapPush_mem rest ⟨sr, ev⟩⟩

/-- C7 witness. -/
theorem c7_witness :
    (((5 : ℚ) < c7m.evaluation →
       (add_feedback c7ctx c7sr 5).topk_schedules = c7ctx.topk_schedules) ∧
     (c7m.evaluation ≤ (5 : ℚ) →
       (add_feedback c7ctx c7sr 5).topk_schedules = heapPush [] ⟨c7sr, 5⟩ ∧
       (⟨c7sr, (5 : ℚ)⟩ : EvaluatedScheduleResult) ∈
         (add_feedback c7ctx c7sr 5).topk_schedules)) ∧
    (add_feedback c7ctx c7sr 5).topk_schedules = heapPush [] ⟨c7sr, 5⟩ :=
  ⟨c7_topk_tie_evicts c7ctx c7sr 5 c7m [] rfl (by decide) (by decide),
   ((c7_topk_tie_evicts c7ctx c7sr 5 c7m [] rfl (by decide) (by decide)).2
     (by decide)).1⟩

/-- C8 counterexample: an invocation of feedback_for does NOT increase the
counter of the key: feeding back a positive score into a context with
counts = 0 leaves counts = 0, refuting counts-equals-ingestions. -/
theorem c8_counterexample :
    ((feedback_for c8ctxs 0 ⟨0, 0⟩ 1) 0).counts = 0 ∧
    ¬ ((feedback_for c8ctxs 0 ⟨0, 0⟩ 1) 0).counts = (c8ctxs 0).counts + 1 := by
  decide

/-- C8 (amended): every invocation of feedback_for (for any key, schedule
result and score, positive or not) leaves counts of every key unchanged;
in the source, counts is instead incremented exactly once per completed
search-step invocation of auto_schedule, so it counts search steps, not
feedback ingestions. -/
theorem c8_feedback_counts_unchanged (contexts : Nat → AutoScheduleContext)
    (key : Nat) (sr : ScheduleResult) (ev : ℚ) (k : Nat) :
    ((feedback_for contexts key sr ev) k).counts = (contexts k).counts := by
  unfold feedback_for
  by_cases h : k = key
  · subst h
    simp [add_feedback_counts]
  · simp [h]

/-- C9: the claim states that get_session fails for every id never returned
by create_session.  The create path returns sessions[global_count] AFTER
incrementing global_count, which inserts a default-constructed null entry at
the NEXT session id.  Starting from an empty registry, one create_session
call returns id 0, yet get_session on id 1 — never returned by any create —
finds the stray entry and returns the null pointer without error, while a
genuinely absent id (2) does error: the assertion meant to reject unknown
ids is defeated by the off-by-one return expression. -/
theorem c9_get_session_stray_entry :
    (create_session ⟨[], 0⟩).1 = 0 ∧
    get_session (create_session ⟨[], 0⟩).2.2 1 = Except.ok none ∧
    get_session (create_session ⟨[], 0⟩).2.2 2 =
      Except.error "Cannot find the session" :=
  ⟨rfl, rfl, rfl⟩

/-- C10: schedule_with_entity returns the schedule obtained by interpreting
the supplied entity (paired with that entity) and leaves the per-key search
state unchanged: after the call, every key maps to exactly the context it
had before, except that a key with no context yet now maps to the fresh
empty context (empty top_k, empty seen sets, zero counts). -/
theorem c10_schedule_with_entity_frame (interp : Entity → Sch)
    (topk new_trial : Nat) (policy : String)
    (contexts : List (Nat × AutoScheduleContext)) (key : Nat) (entity : Entity) :
    (schedule_with_entity interp topk new_trial policy contexts key entity).1 =
      ⟨interp entity, entity⟩ ∧
    ∀ k, ctxFind
        (schedule_with_entity interp topk new_trial policy contexts key entity).2 k =
      if k = key then
        some ((ctxFind contexts key).getD (freshContext topk new_trial policy))
      else ctxFind contexts k := by
  constructor
  · rfl
  · intro k
    simp only [schedule_with_entity]
    cases h : ctxFind contexts key with
    | some c =>
      dsimp only
      by_cases hk : k = key
      · subst hk
        rw [if_pos rfl, h]
        rfl
      · rw [if_neg hk]
    | none =>
      dsimp only
      rw [ctxFind_insert]
      by_cases hk : k = key
      · subst hk
        rw [if_pos rfl, if_pos rfl]
        rfl
      · rw [if_neg hk, if_neg hk]

end Tg
